import Mathlib

/-!
Shallow embedding of a PDF-page-to-PNG conversion utility.

The repository has two entry points that share one pipeline:

* `src/backend/pdf-converter/lambda_function.py` — a cloud-function handler
  `lambda_handler(event, context)` that resolves the PDF source (S3 object or
  embedded base64 bytes), validates the page number against the document's
  page count, renders the page at `zoom = dpi / 72` on both axes, and returns
  a structured `{statusCode, body}` response; any exception is caught and
  turned into a `statusCode 500` body carrying the exception's message and
  type name.
* `src/layers/pymupdf/convert_pdf.py` — a command-line tool
  `convert_pdf_page_to_image(pdf_path, page_number, output_path, dpi=150)`
  returning 0 on success (having saved the PNG to `output_path`) and 1 on any
  failure, with a `__main__` block that parses positional arguments.

External collaborators (boto3 S3, the `fitz`/PyMuPDF renderer, and the input
base64 decoder) are modelled as `Except`-returning fields of an environment
structure; the Python `base64.b64encode` used to build the response body is
modelled concretely so that the encode/decode round trip is provable.
Observable side effects (S3 fetch, base64 decode, document open, page render)
are recorded in a trace so that claims of the form "no page is rendered" or
"no storage fetch is attempted" are statable.
-/

set_option autoImplicit false

namespace PdfConv

/-- A Python exception, as observed by the handler's `except` block:
its type name (`type(e).__name__`) and its message (`str(e)`). -/
structure Exn where
  ty : String
  msg : String
  deriving Repr, DecidableEq

/-- The loosely-typed Lambda input `event`: each key may be absent. -/
structure Event where
  s3Bucket : Option String
  s3Key : Option String
  pdfBase64 : Option String
  pageNumber : Option Int
  dpi : Option Int
  deriving Repr, DecidableEq

/-- A rendered pixmap: `pix.width`, `pix.height`, and the PNG byte string
`pix.tobytes("png")` (each byte a `Nat < 256` in well-formed environments). -/
structure Pixmap where
  width : Nat
  height : Nat
  png : List Nat
  deriving Repr, DecidableEq

/-- The scaling matrix `fitz.Matrix(zoom_x, zoom_y)` passed to `get_pixmap`. -/
structure FitzMatrix where
  x : ℚ
  y : ℚ
  deriving Repr, DecidableEq

/-- An opened PDF document: `len(doc)` is `pageCount`; `render i m` models
`doc[i].get_pixmap(matrix=m, alpha=False)` followed by `tobytes("png")`,
either of which may raise. -/
structure Doc where
  pageCount : Nat
  render : Nat → FitzMatrix → Except Exn Pixmap

/-- External collaborators of the cloud handler: the S3 `get_object` read,
Python's `base64.b64decode` on the input payload, and
`fitz.open(stream=..., filetype="pdf")`. Each may raise an exception. -/
structure Env where
  s3Get : String → String → Except Exn (List Nat)
  b64dec : String → Except Exn (List Nat)
  fitzOpen : List Nat → Except Exn Doc

/-- External collaborator of the command-line tool: `fitz.open(pdf_path)`. -/
structure CliEnv where
  fitzOpenPath : String → Except Exn Doc

/-- Observable effects performed by the cloud handler, in order. -/
inductive Eff where
  | s3Fetch (bucket key : String)
  | decodeB64
  | openDoc
  | renderPage (idx : Nat) (mat : FitzMatrix)
  deriving Repr, DecidableEq

/-- A response body: the success JSON, the 400-validation JSON (only an
`error` key), or the 500 exception JSON (`error` and `type` keys). -/
inductive Body where
  | success (imageBase64 : String) (width height size : Nat) (pageNumber dpi : Int)
  | error (msg : String)
  | failure (msg ty : String)
  deriving Repr, DecidableEq

/-- A cloud-function response `{statusCode, body}`. -/
structure Response where
  statusCode : Nat
  body : Body
  deriving Repr, DecidableEq

/-! ### Base64 (Python's `base64.b64encode`, RFC 4648) -/

/-- The standard base64 alphabet. -/
def b64Alphabet : List Char :=
  "ABCDEFGHIJKLMNOPQRSTUVWXYZabcdefghijklmnopqrstuvwxyz0123456789+/".toList

/-- The base64 character for a sextet value. -/
def b64Char (n : Nat) : Char := b64Alphabet.getD n '?'

/-- The sextet value of a base64 character, if any. -/
def b64Index (c : Char) : Option Nat := b64Alphabet.findIdx? (fun x => x == c)

/-- `base64.b64encode`: three bytes become four characters; a final group of
one or two bytes is padded with `=`. -/
def b64Encode : List Nat → List Char
  | [] => []
  | [a] => [b64Char (a / 4), b64Char (a % 4 * 16), '=', '=']
  | [a, b] => [b64Char (a / 4), b64Char (a % 4 * 16 + b / 16), b64Char (b % 16 * 4), '=']
  | a :: b :: c :: rest =>
      b64Char (a / 4) :: b64Char (a % 4 * 16 + b / 16) ::
      b64Char (b % 16 * 4 + c / 64) :: b64Char (c % 64) :: b64Encode rest

/-- Strict base64 decoding: the inverse of `b64Encode` on its image. -/
def b64Decode : List Char → Option (List Nat)
  | [] => some []
  | c1 :: c2 :: c3 :: c4 :: rest =>
      if c4 = '=' then
        if rest = [] then
          match b64Index c1, b64Index c2 with
          | some s1, some s2 =>
              if c3 = '=' then
                some [s1 * 4 + s2 / 16]
              else
                match b64Index c3 with
                | some s3 => some [s1 * 4 + s2 / 16, s2 % 16 * 16 + s3 / 4]
                | none => none
          | _, _ => none
        else none
      else
        match b64Index c1, b64Index c2, b64Index c3, b64Index c4 with
        | some s1, some s2, some s3, some s4 =>
            match b64Decode rest with
            | some bs => some ((s1 * 4 + s2 / 16) :: (s2 % 16 * 16 + s3 / 4) ::
                               (s3 % 4 * 64 + s4) :: bs)
            | none => none
        | _, _, _, _ => none
  | _ => none

/-! ### The cloud handler (`lambda_function.py`) -/

/-- The zoom matrix built by both entry points:
`zoom = dpi / 72; mat = fitz.Matrix(zoom, zoom)`. -/
def zoomMatrix (dpi : Int) : FitzMatrix :=
  let zoom : ℚ := (dpi : ℚ) / 72
  { x := zoom, y := zoom }

/-- `event.get('pageNumber', 1)`. -/
def pageNumberOf (event : Event) : Int := event.pageNumber.getD 1

/-- `event.get('dpi', 150)`. -/
def dpiOf (event : Event) : Int := event.dpi.getD 150

/-- The 400 body for an out-of-range page:
`f'Invalid page number: {page_number}. PDF has {len(doc)} pages.'`. -/
def pageErrorMsg (pageNumber : Int) (pageCount : Nat) : String :=
  "Invalid page number: " ++ toString pageNumber ++ ". PDF has " ++
    toString pageCount ++ " pages."

/-- The tail of `lambda_handler` once `pdf_bytes` is in hand: open the PDF,
validate the page number, render at `zoomMatrix dpi`, base64-encode the PNG.
Early `return` statements are `.ok`; raised exceptions are `.error`. -/
def convertBytes (env : Env) (page_number dpi : Int) (pdf_bytes : List Nat) :
    Except Exn Response × List Eff :=
  match env.fitzOpen pdf_bytes with
  | .error e => (.error e, [.openDoc])
  | .ok doc =>
    if page_number < 1 ∨ page_number > (doc.pageCount : Int) then
      (.ok { statusCode := 400, body := .error (pageErrorMsg page_number doc.pageCount) },
       [.openDoc])
    else
      let mat := zoomMatrix dpi
      match doc.render (page_number - 1).toNat mat with
      | .error e => (.error e, [.openDoc, .renderPage (page_number - 1).toNat mat])
      | .ok pix =>
        let png_bytes := pix.png
        let image_base64 := String.mk (b64Encode png_bytes)
        (.ok { statusCode := 200,
               body := .success image_base64 pix.width pix.height png_bytes.length
                         page_number dpi },
         [.openDoc, .renderPage (page_number - 1).toNat mat])

/-- The `try:` block of `lambda_handler`: resolve defaults, resolve the PDF
source (S3 wins when both bucket and key are present, else base64, else the
400 missing-source return), then convert. -/
def runHandler (env : Env) (event : Event) : Except Exn Response × List Eff :=
  let page_number := pageNumberOf event
  let dpi := dpiOf event
  match event.s3Bucket, event.s3Key with
  | some b, some k =>
    match env.s3Get b k with
    | .error e => (.error e, [.s3Fetch b k])
    | .ok pdf_bytes =>
      let r := convertBytes env page_number dpi pdf_bytes
      (r.1, .s3Fetch b k :: r.2)
  | _, _ =>
    match event.pdfBase64 with
    | some s =>
      match env.b64dec s with
      | .error e => (.error e, [.decodeB64])
      | .ok pdf_bytes =>
        let r := convertBytes env page_number dpi pdf_bytes
        (r.1, .decodeB64 :: r.2)
    | none =>
      (.ok { statusCode := 400, body := .error "s3Bucket+s3Key or pdfBase64 is required" },
       [])

/-- `lambda_handler`: the `try:` block, with the `except Exception` handler
turning any raised exception into a 500 response carrying `str(e)` and
`type(e).__name__`. -/
def lambda_handler (env : Env) (event : Event) : Response × List Eff :=
  match runHandler env event with
  | (.ok r, tr) => (r, tr)
  | (.error e, tr) => ({ statusCode := 500, body := .failure e.msg e.ty }, tr)

/-! ### The command-line tool (`convert_pdf.py`) -/

/-- The observable outcome of one `convert_pdf_page_to_image` call: the
returned exit code, the files written by `pix.save`, the render calls made,
and the stderr error lines printed by the `except` block. -/
structure CliResult where
  exitCode : Int
  writes : List (String × List Nat)
  renders : List (Nat × FitzMatrix)
  errors : List String
  deriving Repr, DecidableEq

/-- `convert_pdf_page_to_image(pdf_path, page_number, output_path, dpi=150)`:
open the PDF, check `1 <= page_number <= len(doc)` (raising `ValueError`
otherwise), render page `page_number - 1` at `zoomMatrix dpi`, save the PNG
to `output_path`, return 0; any exception is caught, printed as
`f"❌ Error: {e}"` and turns the result into 1 with nothing written. -/
def convert_pdf_page_to_image (env : CliEnv) (pdf_path : String) (page_number : Int)
    (output_path : String) (dpi : Int) : CliResult :=
  match env.fitzOpenPath pdf_path with
  | .error e =>
      { exitCode := 1, writes := [], renders := [], errors := ["❌ Error: " ++ e.msg] }
  | .ok doc =>
    if page_number < 1 ∨ page_number > (doc.pageCount : Int) then
      { exitCode := 1, writes := [], renders := [],
        errors := ["❌ Error: " ++ pageErrorMsg page_number doc.pageCount] }
    else
      let mat := zoomMatrix dpi
      match doc.render (page_number - 1).toNat mat with
      | .error e =>
          { exitCode := 1, writes := [], renders := [((page_number - 1).toNat, mat)],
            errors := ["❌ Error: " ++ e.msg] }
      | .ok pix =>
          { exitCode := 0, writes := [(output_path, pix.png)],
            renders := [((page_number - 1).toNat, mat)], errors := [] }

/-- The `__main__` block: usage error (exit 1) for fewer than four argv
entries, `int()` parsing of the page number and optional dpi (an unparsable
integer raises, terminating the process with exit code 1), dpi defaulting to
150, then `sys.exit(convert_pdf_page_to_image(...))`. -/
def mainCli (env : CliEnv) (argv : List String) : Int :=
  match argv with
  | _ :: pdf_path :: page_str :: output_path :: rest =>
    match page_str.toInt? with
    | none => 1
    | some page_number =>
      let dpiParsed : Option Int :=
        match rest with
        | [] => some 150
        | dpi_str :: _ => dpi_str.toInt?
      match dpiParsed with
      | none => 1
      | some dpi =>
          (convert_pdf_page_to_image env pdf_path page_number output_path dpi).exitCode
  | _ => 1

/-! ### Concrete fixtures (used by witnesses and counterexamples) -/

/-- A one-page document whose only page renders to a fixed 2×3 pixmap. -/
def docOne : Doc where
  pageCount := 1
  render := fun _ _ => .ok { width := 2, height := 3, png := [1, 2, 3] }

/-- An environment in which every collaborator call succeeds. -/
def envOk : Env where
  s3Get := fun _ _ => .ok [9]
  b64dec := fun _ => .ok [9]
  fitzOpen := fun _ => .ok docOne

/-- An environment whose base64 decoder raises `binascii.Error`. -/
def envDecFail : Env where
  s3Get := fun _ _ => .ok [9]
  b64dec := fun _ => .error { ty := "binascii.Error", msg := "Invalid base64-encoded string" }
  fitzOpen := fun _ => .ok docOne

/-- A CLI environment in which the document opens successfully. -/
def cliEnvOk : CliEnv where
  fitzOpenPath := fun _ => .ok docOne

/-- An S3-sourced event with defaulted page number and dpi. -/
def evS3 : Event :=
  { s3Bucket := some "b", s3Key := some "k", pdfBase64 := none,
    pageNumber := none, dpi := none }

/-- An event that supplies both an S3 location and embedded base64 bytes. -/
def evBoth : Event :=
  { s3Bucket := some "b", s3Key := some "k", pdfBase64 := some "AAAA",
    pageNumber := some 1, dpi := some 150 }

/-- An event with no PDF source at all. -/
def evEmpty : Event :=
  { s3Bucket := none, s3Key := none, pdfBase64 := none,
    pageNumber := some 2, dpi := some 96 }

/-- A base64-sourced event. -/
def evB64 : Event :=
  { s3Bucket := none, s3Key := none, pdfBase64 := some "JVBERg==",
    pageNumber := some 1, dpi := none }

/-- An S3-sourced event asking for page 5 of a one-page document. -/
def evBadPage : Event :=
  { s3Bucket := some "b", s3Key := some "k", pdfBase64 := none,
    pageNumber := some 5, dpi := some 150 }

/-- An event with only a bucket and no key. -/
def evPartial : Event :=
  { s3Bucket := some "b", s3Key := none, pdfBase64 := none,
    pageNumber := none, dpi := none }

/-! ### Theorems -/

theorem b64Index_b64Char : ∀ n < 64, b64Index (b64Char n) = some n := by decide

theorem b64Char_ne_pad (n : Nat) : b64Char n ≠ '=' := by
  rcases Nat.lt_or_ge n 64 with h | h
  · exact (by decide : ∀ m < 64, b64Char m ≠ '=') n h
  · have hlen : b64Alphabet.length ≤ n := by
      have : b64Alphabet.length = 64 := by decide
      omega
    have hnone : b64Alphabet[n]? = none := List.getElem?_eq_none hlen
    simp [b64Char, List.getD, hnone]

/-- Base64 encode-then-decode is the identity on byte lists. -/
theorem b64_roundtrip : ∀ bs : List Nat, (∀ x ∈ bs, x < 256) →
    b64Decode (b64Encode bs) = some bs := by
  intro bs
  induction bs using b64Encode.induct with
  | case1 =>
      intro _
      simp [b64Encode, b64Decode]
  | case2 a =>
      intro h
      have ha : a < 256 := h a (by simp)
      have h1 : a / 4 < 64 := by omega
      have h2 : a % 4 * 16 < 64 := by omega
      simp [b64Encode, b64Decode, b64Index_b64Char _ h1, b64Index_b64Char _ h2]
      omega
  | case3 a b =>
      intro h
      have ha : a < 256 := h a (by simp)
      have hb : b < 256 := h b (by simp)
      have h1 : a / 4 < 64 := by omega
      have h2 : a % 4 * 16 + b / 16 < 64 := by omega
      have h3 : b % 16 * 4 < 64 := by omega
      simp [b64Encode, b64Decode, b64Index_b64Char _ h1, b64Index_b64Char _ h2,
            b64Index_b64Char _ h3, b64Char_ne_pad]
      constructor
      · omega
      · omega
  | case4 a b c rest ih =>
      intro h
      have ha : a < 256 := h a (by simp)
      have hb : b < 256 := h b (by simp)
      have hc : c < 256 := h c (by simp)
      have h1 : a / 4 < 64 := by omega
      have h2 : a % 4 * 16 + b / 16 < 64 := by omega
      have h3 : b % 16 * 4 + c / 64 < 64 := by omega
      have h4 : c % 64 < 64 := by omega
      have hrest : ∀ x ∈ rest, x < 256 := fun x hx => h x (by simp [hx])
      simp [b64Encode, b64Decode, b64Index_b64Char _ h1, b64Index_b64Char _ h2,
            b64Index_b64Char _ h3, b64Index_b64Char _ h4, b64Char_ne_pad,
            ih hrest]
      refine ⟨by omega, by omega, by omega⟩

example : (lambda_handler envOk evS3).1.statusCode = 200 := by decide
example : (lambda_handler envOk evEmpty).1.statusCode = 400 := by decide
example : (lambda_handler envDecFail evB64).1.statusCode = 500 := by decide
example : (lambda_handler envOk evBadPage).1.statusCode = 400 := by decide
example : (convert_pdf_page_to_image cliEnvOk "a.pdf" 1 "out.png" 150).exitCode = 0 := by decide
example : b64Decode (b64Encode [137, 80, 78, 71, 13, 10, 26, 10]) =
    some [137, 80, 78, 71, 13, 10, 26, 10] := by decide

/-! ### Helper lemmas about the pipeline -/

theorem convertBytes_out_of_range (env : Env) (p d : Int) (bytes : List Nat) (doc : Doc)
    (hopen : env.fitzOpen bytes = .ok doc)
    (hp : p < 1 ∨ p > (doc.pageCount : Int)) :
    convertBytes env p d bytes =
      (.ok { statusCode := 400, body := .error (pageErrorMsg p doc.pageCount) },
       [.openDoc]) := by
  simp [convertBytes, hopen, hp]

theorem convertBytes_success (env : Env) (p d : Int) (bytes : List Nat) (doc : Doc)
    (pix : Pixmap)
    (hopen : env.fitzOpen bytes = .ok doc)
    (hp : ¬(p < 1 ∨ p > (doc.pageCount : Int)))
    (hrender : doc.render (p - 1).toNat (zoomMatrix d) = .ok pix) :
    convertBytes env p d bytes =
      (.ok { statusCode := 200,
             body := .success (String.mk (b64Encode pix.png)) pix.width pix.height
                       pix.png.length p d },
       [.openDoc, .renderPage (p - 1).toNat (zoomMatrix d)]) := by
  rw [Int.pred_toNat] at hrender
  simp [convertBytes, hopen, hp, hrender]

theorem lambda_handler_trace (env : Env) (event : Event) :
    (lambda_handler env event).2 = (runHandler env event).2 := by
  unfold lambda_handler
  rcases h : runHandler env event with ⟨res, tr⟩
  cases res <;> simp

theorem runHandler_no_source (env : Env) (event : Event)
    (hsrc : event.s3Bucket = none ∨ event.s3Key = none)
    (hb64 : event.pdfBase64 = none) :
    runHandler env event =
      (.ok { statusCode := 400, body := .error "s3Bucket+s3Key or pdfBase64 is required" },
       []) := by
  rcases hB : event.s3Bucket with _ | b <;> rcases hK : event.s3Key with _ | k <;>
    simp_all [runHandler]

theorem convertBytes_ok_status (env : Env) (p d : Int) (bytes : List Nat) (r : Response)
    (h : (convertBytes env p d bytes).1 = .ok r) :
    r.statusCode = 200 ∨ r.statusCode = 400 := by
  simp only [convertBytes] at h
  split at h
  · simp at h
  · split at h
    · simp at h
      simp [← h]
    · split at h
      · simp at h
      · simp at h
        simp [← h]

theorem runHandler_ok_status (env : Env) (event : Event) (r : Response)
    (h : (runHandler env event).1 = .ok r) :
    r.statusCode = 200 ∨ r.statusCode = 400 := by
  simp only [runHandler] at h
  split at h
  · split at h
    · simp at h
    · exact convertBytes_ok_status _ _ _ _ _ h
  · split at h
    · split at h
      · simp at h
      · exact convertBytes_ok_status _ _ _ _ _ h
    · simp at h
      simp [← h]

theorem convertBytes_trace_mem (env : Env) (p d : Int) (bytes : List Nat) :
    ∀ ef ∈ (convertBytes env p d bytes).2,
      ef = Eff.openDoc ∨ ∃ idx, ef = Eff.renderPage idx (zoomMatrix d) := by
  intro ef hef
  simp only [convertBytes] at hef
  split at hef
  · simp at hef
    left
    exact hef
  · split at hef
    · simp at hef
      left
      exact hef
    · split at hef <;> simp at hef <;>
        rcases hef with hef | hef <;>
        first
          | exact Or.inl hef
          | exact Or.inr ⟨_, hef⟩

theorem runHandler_trace_mem (env : Env) (event : Event) :
    ∀ ef ∈ (runHandler env event).2,
      (∃ b k, event.s3Bucket = some b ∧ event.s3Key = some k ∧ ef = Eff.s3Fetch b k)
      ∨ ((event.s3Bucket = none ∨ event.s3Key = none) ∧ ef = Eff.decodeB64)
      ∨ ef = Eff.openDoc
      ∨ ∃ idx, ef = Eff.renderPage idx (zoomMatrix (dpiOf event)) := by
  intro ef hef
  simp only [runHandler] at hef
  split at hef
  · rename_i b k hB hK
    split at hef
    · simp at hef
      exact Or.inl ⟨b, k, hB, hK, hef⟩
    · simp at hef
      rcases hef with hef | hef
      · exact Or.inl ⟨b, k, hB, hK, hef⟩
      · rcases convertBytes_trace_mem env _ _ _ ef hef with h | h
        · exact Or.inr (Or.inr (Or.inl h))
        · exact Or.inr (Or.inr (Or.inr h))
  · rename_i hno
    have hsrc : event.s3Bucket = none ∨ event.s3Key = none := by
      rcases hB : event.s3Bucket with _ | b
      · exact Or.inl rfl
      · rcases hK : event.s3Key with _ | k
        · exact Or.inr rfl
        · exact absurd hK (hno b k hB)
    split at hef
    · split at hef
      · simp at hef
        exact Or.inr (Or.inl ⟨hsrc, hef⟩)
      · simp at hef
        rcases hef with hef | hef
        · exact Or.inr (Or.inl ⟨hsrc, hef⟩)
        · rcases convertBytes_trace_mem env _ _ _ ef hef with h | h
          · exact Or.inr (Or.inr (Or.inl h))
          · exact Or.inr (Or.inr (Or.inr h))
    · simp at hef

theorem cli_exit01 (cenv : CliEnv) (path : String) (p : Int) (out : String) (d : Int) :
    (convert_pdf_page_to_image cenv path p out d).exitCode = 0 ∨
      (convert_pdf_page_to_image cenv path p out d).exitCode = 1 := by
  simp only [convert_pdf_page_to_image]
  split
  · right; rfl
  · split
    · right; rfl
    · split
      · right; rfl
      · left; rfl

theorem cli_renders_mat (cenv : CliEnv) (path : String) (p : Int) (out : String) (d : Int) :
    ∀ pr ∈ (convert_pdf_page_to_image cenv path p out d).renders,
      pr.2 = zoomMatrix d := by
  intro pr hpr
  simp only [convert_pdf_page_to_image] at hpr
  split at hpr
  · simp at hpr
  · split at hpr
    · simp at hpr
    · split at hpr <;> simp at hpr <;> simp [hpr]

/-! ### Claim theorems -/

/-- C2: a cloud request with neither an S3 location (both bucket and key)
nor embedded base64 bytes fails with the missing-source response —
statusCode 400 with an error message in the body — and the effect trace is
empty: no storage fetch and no rendering was attempted. -/
theorem missing_source_rejected (env : Env) (event : Event)
    (hsrc : event.s3Bucket = none ∨ event.s3Key = none)
    (hb64 : event.pdfBase64 = none) :
    lambda_handler env event =
      ({ statusCode := 400, body := .error "s3Bucket+s3Key or pdfBase64 is required" },
       []) := by
  unfold lambda_handler
  rw [runHandler_no_source env event hsrc hb64]

theorem missing_source_rejected_witness :
    lambda_handler envOk evEmpty =
      ({ statusCode := 400, body := .error "s3Bucket+s3Key or pdfBase64 is required" },
       []) :=
  missing_source_rejected envOk evEmpty (Or.inl rfl) rfl

/-- C1: when the resolved page number is below 1 or above the document's
page count, the cloud handler answers statusCode 400 with the message naming
both the requested page and the page count, and no render effect occurs; the
command-line tool likewise fails (exit code 1, nothing written, no render)
printing the same message. -/
theorem page_out_of_range (env : Env) (cenv : CliEnv) (event : Event)
    (b k path out : String) (pdf_bytes : List Nat) (doc : Doc) (d : Int)
    (hB : event.s3Bucket = some b) (hK : event.s3Key = some k)
    (hs3 : env.s3Get b k = .ok pdf_bytes)
    (hopen : env.fitzOpen pdf_bytes = .ok doc)
    (hcli : cenv.fitzOpenPath path = .ok doc)
    (hp : pageNumberOf event < 1 ∨ pageNumberOf event > (doc.pageCount : Int)) :
    lambda_handler env event =
      ({ statusCode := 400,
         body := .error (pageErrorMsg (pageNumberOf event) doc.pageCount) },
       [.s3Fetch b k, .openDoc])
    ∧ (∀ idx mat, Eff.renderPage idx mat ∉ (lambda_handler env event).2)
    ∧ convert_pdf_page_to_image cenv path (pageNumberOf event) out d =
      { exitCode := 1, writes := [], renders := [],
        errors := ["❌ Error: " ++ pageErrorMsg (pageNumberOf event) doc.pageCount] } := by
  have hcb := convertBytes_out_of_range env (pageNumberOf event) (dpiOf event)
    pdf_bytes doc hopen hp
  have hmain : lambda_handler env event =
      ({ statusCode := 400,
         body := .error (pageErrorMsg (pageNumberOf event) doc.pageCount) },
       [.s3Fetch b k, .openDoc]) := by
    simp [lambda_handler, runHandler, hB, hK, hs3, hcb]
  refine ⟨hmain, ?_, ?_⟩
  · intro idx mat
    rw [hmain]
    simp
  · simp [convert_pdf_page_to_image, hcli, hp]

theorem page_out_of_range_witness :
    lambda_handler envOk evBadPage =
      ({ statusCode := 400, body := .error (pageErrorMsg 5 1) }, [.s3Fetch "b" "k", .openDoc])
    ∧ (∀ idx mat, Eff.renderPage idx mat ∉ (lambda_handler envOk evBadPage).2)
    ∧ convert_pdf_page_to_image cliEnvOk "a.pdf" 5 "out.png" 150 =
      { exitCode := 1, writes := [], renders := [],
        errors := ["❌ Error: " ++ pageErrorMsg 5 1] } :=
  page_out_of_range envOk cliEnvOk evBadPage "b" "k" "a.pdf" "out.png" [9] docOne 150
    rfl rfl rfl rfl rfl (by decide)

/-- C3: on a successful cloud conversion the body's `size` field is the
length of the PNG byte sequence the renderer produced, and base64-decoding
the body's `imageBase64` field gives back exactly that PNG byte sequence. -/
theorem success_roundtrip (env : Env) (event : Event) (b k : String)
    (pdf_bytes : List Nat) (doc : Doc) (pix : Pixmap)
    (hB : event.s3Bucket = some b) (hK : event.s3Key = some k)
    (hs3 : env.s3Get b k = .ok pdf_bytes)
    (hopen : env.fitzOpen pdf_bytes = .ok doc)
    (hp : ¬(pageNumberOf event < 1 ∨ pageNumberOf event > (doc.pageCount : Int)))
    (hrender : doc.render (pageNumberOf event - 1).toNat (zoomMatrix (dpiOf event)) =
        .ok pix)
    (hbytes : ∀ x ∈ pix.png, x < 256) :
    lambda_handler env event =
      ({ statusCode := 200,
         body := .success (String.mk (b64Encode pix.png)) pix.width pix.height
                   pix.png.length (pageNumberOf event) (dpiOf event) },
       [.s3Fetch b k, .openDoc,
        .renderPage (pageNumberOf event - 1).toNat (zoomMatrix (dpiOf event))])
    ∧ b64Decode (String.mk (b64Encode pix.png)).data = some pix.png := by
  have hcb := convertBytes_success env (pageNumberOf event) (dpiOf event)
    pdf_bytes doc pix hopen hp hrender
  constructor
  · simp [lambda_handler, runHandler, hB, hK, hs3, hcb]
  · exact b64_roundtrip pix.png hbytes

theorem success_roundtrip_witness :
    lambda_handler envOk evS3 =
      ({ statusCode := 200,
         body := .success (String.mk (b64Encode [1, 2, 3])) 2 3 3 1 150 },
       [.s3Fetch "b" "k", .openDoc, .renderPage 0 (zoomMatrix 150)])
    ∧ b64Decode (String.mk (b64Encode [1, 2, 3])).data = some [1, 2, 3] :=
  success_roundtrip envOk evS3 "b" "k" [9] docOne
    { width := 2, height := 3, png := [1, 2, 3] }
    rfl rfl rfl rfl (by decide) rfl (by decide)

/-- C6: a cloud request that reaches the embedded-bytes branch with a
payload the base64 decoder rejects fails: the decoder's exception (the
invalid-encoding category, `binascii.Error` in Python, surfaced via the
body's `type` field) becomes a statusCode 500 response carrying the
exception's message and type name, and nothing is opened or rendered. -/
theorem invalid_encoding_fails (env : Env) (event : Event) (s : String) (e : Exn)
    (hsrc : event.s3Bucket = none ∨ event.s3Key = none)
    (hpdf : event.pdfBase64 = some s)
    (hdec : env.b64dec s = .error e) :
    lambda_handler env event =
      ({ statusCode := 500, body := .failure e.msg e.ty }, [.decodeB64]) := by
  rcases hB : event.s3Bucket with _ | b <;> rcases hK : event.s3Key with _ | k <;>
    simp_all [lambda_handler, runHandler]

theorem invalid_encoding_fails_witness :
    lambda_handler envDecFail evB64 =
      ({ statusCode := 500,
         body := .failure "Invalid base64-encoded string" "binascii.Error" },
       [.decodeB64]) :=
  invalid_encoding_fails envDecFail evB64 "JVBERg=="
    { ty := "binascii.Error", msg := "Invalid base64-encoded string" }
    (Or.inl rfl) rfl rfl

/-- C4: every rendering matrix ever handed to the renderer — by the cloud
handler or by the command-line tool — scales both axes by exactly
`dpi / 72`. -/
theorem zoom_uniform (env : Env) (cenv : CliEnv) (event : Event)
    (path out : String) (p d : Int) :
    (∀ idx mat, Eff.renderPage idx mat ∈ (lambda_handler env event).2 →
        mat.x = (dpiOf event : ℚ) / 72 ∧ mat.y = (dpiOf event : ℚ) / 72)
    ∧ (∀ pr : Nat × FitzMatrix, pr ∈ (convert_pdf_page_to_image cenv path p out d).renders →
        pr.2.x = (d : ℚ) / 72 ∧ pr.2.y = (d : ℚ) / 72) := by
  constructor
  · intro idx mat hmem
    rw [lambda_handler_trace] at hmem
    rcases runHandler_trace_mem env event _ hmem with
      ⟨b, k, _, _, hef⟩ | ⟨_, hef⟩ | hef | ⟨idx2, hef⟩ <;>
      first
        | (simp only [Eff.renderPage.injEq] at hef
           rw [hef.2]
           simp [zoomMatrix])
        | simp at hef
  · intro pr hpr
    rw [cli_renders_mat cenv path p out d pr hpr]
    simp [zoomMatrix]

theorem zoom_uniform_witness :
    ((zoomMatrix 150).x = (150 : ℚ) / 72 ∧ (zoomMatrix 150).y = (150 : ℚ) / 72)
    ∧ ((zoomMatrix 96).x = (96 : ℚ) / 72 ∧ (zoomMatrix 96).y = (96 : ℚ) / 72) :=
  ⟨(zoom_uniform envOk cliEnvOk evS3 "a.pdf" "out.png" 1 96).1 0 (zoomMatrix 150)
      (by rw [show (lambda_handler envOk evS3).2 =
                [.s3Fetch "b" "k", .openDoc, .renderPage 0 (zoomMatrix 150)] from rfl]
          simp),
   (zoom_uniform envOk cliEnvOk evS3 "a.pdf" "out.png" 1 96).2 (0, zoomMatrix 96)
      (by rw [show (convert_pdf_page_to_image cliEnvOk "a.pdf" 1 "out.png" 96).renders =
                [(0, zoomMatrix 96)] from rfl]
          simp)⟩

/-- C5: an absent `pageNumber` resolves to 1 and an absent `dpi` to 150; a
successful cloud response echoes exactly these resolved values (the render
uses page index 0 and the dpi-150 matrix), and the command-line `__main__`
with four arguments calls the converter with dpi 150. -/
theorem defaults_resolved (env : Env) (cenv : CliEnv) (event : Event)
    (b k prog pdf_path page_str out : String) (p : Int)
    (pdf_bytes : List Nat) (doc : Doc) (pix : Pixmap)
    (hpn : event.pageNumber = none) (hd : event.dpi = none)
    (hB : event.s3Bucket = some b) (hK : event.s3Key = some k)
    (hs3 : env.s3Get b k = .ok pdf_bytes)
    (hopen : env.fitzOpen pdf_bytes = .ok doc)
    (hcount : 1 ≤ doc.pageCount)
    (hrender : doc.render 0 (zoomMatrix 150) = .ok pix)
    (hparse : page_str.toInt? = some p) :
    pageNumberOf event = 1 ∧ dpiOf event = 150
    ∧ lambda_handler env event =
        ({ statusCode := 200,
           body := .success (String.mk (b64Encode pix.png)) pix.width pix.height
                     pix.png.length 1 150 },
         [.s3Fetch b k, .openDoc, .renderPage 0 (zoomMatrix 150)])
    ∧ mainCli cenv [prog, pdf_path, page_str, out] =
        (convert_pdf_page_to_image cenv pdf_path p out 150).exitCode := by
  have hp1 : pageNumberOf event = 1 := by simp [pageNumberOf, hpn]
  have hd1 : dpiOf event = 150 := by simp [dpiOf, hd]
  refine ⟨hp1, hd1, ?_, ?_⟩
  · have hrange : ¬(pageNumberOf event < 1 ∨ pageNumberOf event > (doc.pageCount : Int)) := by
      rw [hp1]
      omega
    have hrender2 : doc.render (pageNumberOf event - 1).toNat (zoomMatrix (dpiOf event)) =
        .ok pix := by
      rw [hp1, hd1]
      simpa using hrender
    have hcb := convertBytes_success env (pageNumberOf event) (dpiOf event)
      pdf_bytes doc pix hopen hrange hrender2
    rw [hp1, hd1] at hcb
    simp only [lambda_handler, runHandler, hB, hK, hs3, hp1, hd1, hcb]
    simp
  · simp [mainCli, hparse]

theorem defaults_resolved_witness :
    pageNumberOf evS3 = 1 ∧ dpiOf evS3 = 150
    ∧ lambda_handler envOk evS3 =
        ({ statusCode := 200,
           body := .success (String.mk (b64Encode [1, 2, 3])) 2 3 3 1 150 },
         [.s3Fetch "b" "k", .openDoc, .renderPage 0 (zoomMatrix 150)])
    ∧ mainCli cliEnvOk ["convert_pdf.py", "a.pdf", "1", "out.png"] =
        (convert_pdf_page_to_image cliEnvOk "a.pdf" 1 "out.png" 150).exitCode :=
  defaults_resolved envOk cliEnvOk evS3 "b" "k" "convert_pdf.py" "a.pdf" "1" "out.png"
    1 [9] docOne { width := 2, height := 3, png := [1, 2, 3] }
    rfl rfl rfl rfl rfl rfl (by decide) rfl
    (by simp [String.toInt?, String.toNat?, String.foldl_eq, String.isNat, String.all,
              String.any_eq, String.get, String.isEmpty, String.utf8GetAux, String.endPos,
              String.utf8ByteSize, String.utf8ByteSize.go, Char.utf8Size, String.Pos.ext_iff])

/-- C7 counterexample: a request supplying both an S3 location and embedded
base64 bytes is not rejected — the handler processes it (statusCode 200),
so "exactly one source variant must be resolvable, otherwise the request is
invalid" is false as stated. -/
theorem both_sources_processed :
    evBoth.s3Bucket = some "b" ∧ evBoth.s3Key = some "k"
    ∧ evBoth.pdfBase64 = some "AAAA"
    ∧ (lambda_handler envOk evBoth).1.statusCode = 200 := by decide

/-- C7 amended: at least one source variant must be resolvable — a request
with neither is rejected with the 400 missing-source response before any
effect; when both variants are supplied, the object-storage source takes
priority and the embedded bytes are never decoded (the request is processed,
not rejected). -/
theorem source_priority (env : Env) (event : Event) :
    (∀ b k, event.s3Bucket = some b → event.s3Key = some k →
        Eff.decodeB64 ∉ (lambda_handler env event).2)
    ∧ ((event.s3Bucket = none ∨ event.s3Key = none) → event.pdfBase64 = none →
        lambda_handler env event =
          ({ statusCode := 400, body := .error "s3Bucket+s3Key or pdfBase64 is required" },
           [])) := by
  constructor
  · intro b k hB hK hmem
    rw [lambda_handler_trace] at hmem
    rcases runHandler_trace_mem env event _ hmem with
      ⟨b2, k2, _, _, hef⟩ | ⟨hsrc, _⟩ | hef | ⟨idx, hef⟩ <;>
      first
        | simp at hef
        | (rcases hsrc with h | h <;> simp_all)
  · intro hsrc hb64
    unfold lambda_handler
    rw [runHandler_no_source env event hsrc hb64]

theorem source_priority_witness :
    Eff.decodeB64 ∉ (lambda_handler envOk evBoth).2
    ∧ lambda_handler envOk evEmpty =
        ({ statusCode := 400, body := .error "s3Bucket+s3Key or pdfBase64 is required" },
         []) :=
  ⟨(source_priority envOk evBoth).1 "b" "k" rfl rfl,
   (source_priority envOk evEmpty).2 (Or.inl rfl) rfl⟩

/-- C8: the command-line converter either succeeds — exit code 0 with the
requested page's PNG written to the output path — or fails with exit code 1
and nothing written; the `__main__` wrapper's process exit code is always
0 or 1. -/
theorem cli_exit_contract (cenv : CliEnv) (path out : String) (p d : Int) :
    ((∃ doc pix, cenv.fitzOpenPath path = .ok doc
        ∧ ¬(p < 1 ∨ p > (doc.pageCount : Int))
        ∧ doc.render (p - 1).toNat (zoomMatrix d) = .ok pix
        ∧ convert_pdf_page_to_image cenv path p out d =
            { exitCode := 0, writes := [(out, pix.png)],
              renders := [((p - 1).toNat, zoomMatrix d)], errors := [] })
      ∨ ((convert_pdf_page_to_image cenv path p out d).exitCode = 1
          ∧ (convert_pdf_page_to_image cenv path p out d).writes = []))
    ∧ (∀ argv : List String, mainCli cenv argv = 0 ∨ mainCli cenv argv = 1) := by
  constructor
  · rcases hopen : cenv.fitzOpenPath path with e | doc
    · right
      simp [convert_pdf_page_to_image, hopen]
    · by_cases hp : p < 1 ∨ p > (doc.pageCount : Int)
      · right
        simp [convert_pdf_page_to_image, hopen, hp]
      · rcases hrender : doc.render (p - 1).toNat (zoomMatrix d) with e | pix
        · right
          rw [Int.pred_toNat] at hrender
          simp [convert_pdf_page_to_image, hopen, hp, hrender]
        · left
          refine ⟨doc, pix, rfl, hp, hrender, ?_⟩
          rw [Int.pred_toNat] at hrender
          simp [convert_pdf_page_to_image, hopen, hp, hrender]
  · intro argv
    simp only [mainCli]
    split
    · split
      · right; rfl
      · split
        · right; rfl
        · exact cli_exit01 _ _ _ _ _
    · right; rfl

theorem cli_exit_contract_witness :
    mainCli cliEnvOk ["convert_pdf.py"] = 0 ∨ mainCli cliEnvOk ["convert_pdf.py"] = 1 :=
  (cli_exit_contract cliEnvOk "a.pdf" "out.png" 1 150).2 ["convert_pdf.py"]

/-- C9: `lambda_handler` is total over its embedding: every invocation
produces either the `try:` block's own response (statusCode 200 or 400), or
— when any pipeline step raises an exception — the `except` block's
statusCode 500 response carrying the exception's message as `error` and its
type name as `type`; no exception escapes. -/
theorem handler_never_throws (env : Env) (event : Event) :
    (∃ r tr, runHandler env event = (.ok r, tr) ∧ lambda_handler env event = (r, tr)
        ∧ (r.statusCode = 200 ∨ r.statusCode = 400))
    ∨ (∃ e tr, runHandler env event = (.error e, tr)
        ∧ lambda_handler env event =
            ({ statusCode := 500, body := .failure e.msg e.ty }, tr)) := by
  rcases hrun : runHandler env event with ⟨res, tr⟩
  cases res with
  | ok r =>
      refine Or.inl ⟨r, tr, rfl, ?_, ?_⟩
      · simp [lambda_handler, hrun]
      · exact runHandler_ok_status env event r (by rw [hrun])
  | error e =>
      exact Or.inr ⟨e, tr, rfl, by simp [lambda_handler, hrun]⟩

theorem handler_never_throws_witness :
    (∃ r tr, runHandler envDecFail evB64 = (.ok r, tr)
        ∧ lambda_handler envDecFail evB64 = (r, tr)
        ∧ (r.statusCode = 200 ∨ r.statusCode = 400))
    ∨ (∃ e tr, runHandler envDecFail evB64 = (.error e, tr)
        ∧ lambda_handler envDecFail evB64 =
            ({ statusCode := 500, body := .failure e.msg e.ty }, tr)) :=
  handler_never_throws envDecFail evB64

/-- C10: an event carrying only one half of the object-storage location is
treated as having no S3 source: no storage fetch ever appears in the trace,
and if the embedded bytes are also absent the request ends in the 400
missing-source response with an empty trace. -/
theorem partial_location_ignored (env : Env) (event : Event)
    (hpart : event.s3Bucket = none ∨ event.s3Key = none) :
    (∀ b k, Eff.s3Fetch b k ∉ (lambda_handler env event).2)
    ∧ (event.pdfBase64 = none →
        lambda_handler env event =
          ({ statusCode := 400, body := .error "s3Bucket+s3Key or pdfBase64 is required" },
           [])) := by
  constructor
  · intro b k hmem
    rw [lambda_handler_trace] at hmem
    rcases runHandler_trace_mem env event _ hmem with
      ⟨b2, k2, hB, hK, hef⟩ | ⟨_, hef⟩ | hef | ⟨idx, hef⟩
    · rcases hpart with h | h <;> simp_all
    · simp at hef
    · simp at hef
    · simp at hef
  · intro hb64
    unfold lambda_handler
    rw [runHandler_no_source env event hpart hb64]

theorem partial_location_ignored_witness :
    (∀ b k, Eff.s3Fetch b k ∉ (lambda_handler envOk evPartial).2)
    ∧ lambda_handler envOk evPartial =
        ({ statusCode := 400, body := .error "s3Bucket+s3Key or pdfBase64 is required" },
         []) :=
  ⟨(partial_location_ignored envOk evPartial (Or.inr rfl)).1,
   (partial_location_ignored envOk evPartial (Or.inr rfl)).2 rfl⟩

end PdfConv
